import Mathlib

/-!
Verification of the single-player Mafia game repository.

Part 1 embeds the React frontend components (ActionInput, MessageInput,
GameStatus, App) as pure Lean functions over the props they receive;
rendering is modelled as a view value, and event handlers as functions
returning the list of callback invocations they perform.

Part 2 models the match engine (night resolution, voting resolution,
win check) described in the specification; that code is not present in
the repository sources, so those definitions are modelled from the spec.
-/

/-- A frontend player object as passed in the `players` prop: plain JS
object with string `id`, `name` and `status` fields (status is compared
against the literal "ALIVE" in the components). -/
structure Player where
  id : String
  name : String
  status : String
  deriving DecidableEq, Repr

/-- The payload the `ActionInput` component passes to `onActionSubmit`:
an object with a `type` field ("vote" or "night_action") and a
`targetId` field. -/
structure GameAction where
  type : String
  targetId : String
  deriving DecidableEq, Repr

/-- A rendered button of the `ActionInput` component: its visible label
and the action its click handler submits via `onActionSubmit`. -/
structure ActionButton where
  label : String
  action : GameAction
  deriving DecidableEq, Repr

/-- What the `ActionInput` component renders: a panel with a heading and
a row of target buttons (Voting or Night phase), or the waiting notice
with no buttons (any other phase). -/
inductive ActionView where
  | panel (heading : String) (buttons : List ActionButton)
  | waiting
  deriving DecidableEq, Repr

/-- The buttons present in a rendered `ActionInput` view; the waiting
notice contains none. -/
def ActionView.buttons : ActionView → List ActionButton
  | .panel _ bs => bs
  | .waiting => []

/-- Embedding of `ActionInput` (components/ActionInput.jsx): during the
Voting phase it renders one "Vote {name}" button per ALIVE player whose
click calls `onActionSubmit` with type "vote"; during the Night phase
one "Target {name}" button per ALIVE player submitting "night_action";
in any other phase only the waiting notice. -/
def ActionInput.render (phase : String) (players : List Player) : ActionView :=
  if phase = "Voting" then
    .panel "Vote" ((players.filter (fun p => p.status = "ALIVE")).map
      (fun p => ⟨"Vote " ++ p.name, ⟨"vote", p.id⟩⟩))
  else if phase = "Night" then
    .panel "Night Action" ((players.filter (fun p => p.status = "ALIVE")).map
      (fun p => ⟨"Target " ++ p.name, ⟨"night_action", p.id⟩⟩))
  else
    .waiting

/-- The set of payloads with which `onActionSubmit` can ever be invoked
from a rendered `ActionInput`: one per rendered button (each button's
click handler calls the callback with exactly its action). -/
def ActionInput.submittedActions (phase : String) (players : List Player) :
    List GameAction :=
  (ActionInput.render phase players).buttons.map (·.action)

/-- The `players` prop `App` passes to `ActionInput`
(App.jsx: `players.filter(p => p.id !== humanPlayerId)`). -/
def App.targetablePlayers (players : List Player) (humanPlayerId : String) :
    List Player :=
  players.filter (fun p => p.id ≠ humanPlayerId)

/-- The mock player list from ActionInput.test.jsx. -/
def mockTestPlayers : List Player :=
  [⟨"p1", "Alice", "ALIVE"⟩, ⟨"p2", "Bob", "ALIVE"⟩, ⟨"p3", "Charlie", "DEAD"⟩]

/-- Helper: the buttons rendered in the Night or Voting phase are exactly
the images of the ALIVE players. -/
theorem ActionInput.buttons_eq (phase : String) (players : List Player)
    (hphase : phase = "Night" ∨ phase = "Voting") :
    ∃ mk : Player → ActionButton,
      (∀ p, (mk p).action.targetId = p.id) ∧
      (ActionInput.render phase players).buttons =
        (players.filter (fun p => p.status = "ALIVE")).map mk := by
  rcases hphase with h | h <;> subst h
  · exact ⟨fun p => ⟨"Target " ++ p.name, ⟨"night_action", p.id⟩⟩,
      fun _ => rfl, rfl⟩
  · exact ⟨fun p => ⟨"Vote " ++ p.name, ⟨"vote", p.id⟩⟩,
      fun _ => rfl, rfl⟩

/-- C1: in the Night and Voting phases, a target button for a player is
rendered if and only if that player's status is ALIVE; in particular a
DEAD participant is never offered as the target of a night action or a
vote. (Player ids are assumed distinct, as React's `key={player.id}`
requires.) -/
theorem actionInput_target_button_iff_alive (phase : String)
    (players : List Player) (p : Player)
    (hphase : phase = "Night" ∨ phase = "Voting")
    (hnodup : (players.map Player.id).Nodup)
    (hp : p ∈ players) :
    (∃ b ∈ (ActionInput.render phase players).buttons,
        b.action.targetId = p.id) ↔ p.status = "ALIVE" := by
  obtain ⟨mk, hmk, hbs⟩ := ActionInput.buttons_eq phase players hphase
  rw [hbs]
  constructor
  · rintro ⟨b, hb, hbid⟩
    rw [List.mem_map] at hb
    obtain ⟨q, hq, hqb⟩ := hb
    rw [List.mem_filter] at hq
    obtain ⟨hqmem, hqalive⟩ := hq
    have hid : q.id = p.id := by rw [← hbid, ← hqb, hmk]
    have : q = p := List.inj_on_of_nodup_map hnodup hqmem hp hid
    subst this
    exact of_decide_eq_true hqalive
  · intro halive
    refine ⟨mk p, List.mem_map_of_mem mk ?_, hmk p⟩
    rw [List.mem_filter]
    exact ⟨hp, decide_eq_true halive⟩

/-- Witness for C1 at the test file's mock players in the Night phase:
Charlie is DEAD, and indeed no rendered button targets Charlie. -/
theorem actionInput_target_button_iff_alive_witness :
    (∃ b ∈ (ActionInput.render "Night" mockTestPlayers).buttons,
        b.action.targetId = "p3") ↔
      (Player.mk "p3" "Charlie" "DEAD").status = "ALIVE" :=
  actionInput_target_button_iff_alive "Night" mockTestPlayers
    ⟨"p3", "Charlie", "DEAD"⟩ (Or.inl rfl) (by decide) (by decide)

/-- C5: every action that can reach `onActionSubmit` is either a
night action submitted during the Night phase or a vote submitted during
the Voting phase. Hence outside the Night phase no night action can be
submitted, outside the Voting phase no vote can be submitted, and in a
phase that is neither, the component renders no buttons at all and the
callback is never invoked. -/
theorem actionInput_phase_restriction (phase : String) (players : List Player)
    (a : GameAction)
    (ha : a ∈ ActionInput.submittedActions phase players) :
    (a.type = "night_action" ∧ phase = "Night") ∨
      (a.type = "vote" ∧ phase = "Voting") := by
  unfold ActionInput.submittedActions ActionInput.render at ha
  by_cases hv : phase = "Voting"
  · rw [if_pos hv] at ha
    rw [ActionView.buttons, List.map_map, List.mem_map] at ha
    obtain ⟨p, _, hpa⟩ := ha
    exact Or.inr ⟨by rw [← hpa]; rfl, hv⟩
  · rw [if_neg hv] at ha
    by_cases hn : phase = "Night"
    · rw [if_pos hn] at ha
      rw [ActionView.buttons, List.map_map, List.mem_map] at ha
      obtain ⟨p, _, hpa⟩ := ha
      exact Or.inl ⟨by rw [← hpa]; rfl, hn⟩
    · rw [if_neg hn] at ha
      simp [ActionView.buttons] at ha

/-- Witness for C5: the night action targeting Alice is submittable from
the mock players during the Night phase, and the theorem places it in the
Night branch. -/
theorem actionInput_phase_restriction_witness :
    ((GameAction.mk "night_action" "p1").type = "night_action" ∧
        "Night" = "Night") ∨
      ((GameAction.mk "night_action" "p1").type = "vote" ∧
        "Night" = "Voting") :=
  actionInput_phase_restriction "Night" mockTestPlayers
    ⟨"night_action", "p1"⟩ (by decide)

/-- C6: `App` passes `ActionInput` the player list filtered to exclude the
human player's id, so every action submitted through the UI has a target
id different from the human player's id. -/
theorem actionInput_never_targets_human (phase : String)
    (players : List Player) (humanPlayerId : String) (a : GameAction)
    (ha : a ∈ ActionInput.submittedActions phase
        (App.targetablePlayers players humanPlayerId)) :
    a.targetId ≠ humanPlayerId := by
  unfold ActionInput.submittedActions at ha
  rw [List.mem_map] at ha
  obtain ⟨b, hb, hba⟩ := ha
  obtain ⟨mk, hmk, hbs⟩ | hwait :
      (∃ mk : Player → ActionButton,
        (∀ p, (mk p).action.targetId = p.id) ∧
        (ActionInput.render phase
            (App.targetablePlayers players humanPlayerId)).buttons =
          (((App.targetablePlayers players humanPlayerId)).filter
            (fun p => p.status = "ALIVE")).map mk) ∨
      (ActionInput.render phase
          (App.targetablePlayers players humanPlayerId)).buttons = [] := by
    by_cases hv : phase = "Voting"
    · subst hv
      exact Or.inl ⟨fun p => ⟨"Vote " ++ p.name, ⟨"vote", p.id⟩⟩,
        fun _ => rfl, rfl⟩
    · by_cases hn : phase = "Night"
      · subst hn
        exact Or.inl ⟨fun p => ⟨"Target " ++ p.name, ⟨"night_action", p.id⟩⟩,
          fun _ => rfl, rfl⟩
      · right
        unfold ActionInput.render
        rw [if_neg hv, if_neg hn]
        rfl
  · rw [hbs, List.mem_map] at hb
    obtain ⟨p, hp, hpb⟩ := hb
    have hpid : a.targetId = p.id := by rw [← hba, ← hpb, hmk]
    rw [List.mem_filter] at hp
    have hpmem := hp.1
    unfold App.targetablePlayers at hpmem
    rw [List.mem_filter] at hpmem
    have : p.id ≠ humanPlayerId := by
      have := hpmem.2
      exact of_decide_eq_true this
    rw [hpid]
    exact this
  · rw [hwait] at hb
    exact absurd hb (List.not_mem_nil b)

/-- Witness for C6: with the App's mock players and human id "human-1",
the vote targeting "ai-2" is submittable in the Voting phase and its
target differs from the human id. -/
theorem actionInput_never_targets_human_witness :
    (GameAction.mk "vote" "ai-2").targetId ≠ "human-1" :=
  actionInput_never_targets_human "Voting"
    [⟨"human-1", "Player 1 (You)", "ALIVE"⟩, ⟨"ai-2", "Player 2 (AI)", "ALIVE"⟩]
    "human-1" ⟨"vote", "ai-2"⟩ (by decide)

/-- A chat message as stored in the App's `messages` state: sender display
name and text. -/
structure Message where
  senderName : String
  text : String
  deriving DecidableEq, Repr

/-- Embedding of `handleMessageSubmit` (App.jsx): builds the new message
object for the human player and sets the state to the old list spread
with the new message appended. -/
def App.handleMessageSubmit (messages : List Message) (message : String) :
    List Message :=
  messages ++ [⟨"Player 1 (You)", message⟩]

/-- C7: submitting a chat message yields the old transcript with exactly
one message appended at the end: the length grows by one, the first
`messages.length` entries are the old transcript unchanged and in order,
and the last entry is the newly built message. -/
theorem handleMessageSubmit_appends (messages : List Message)
    (message : String) :
    (App.handleMessageSubmit messages message).length =
        messages.length + 1 ∧
      (App.handleMessageSubmit messages message).take messages.length =
        messages ∧
      (App.handleMessageSubmit messages message).getLast? =
        some ⟨"Player 1 (You)", message⟩ := by
  unfold App.handleMessageSubmit
  refine ⟨?_, ?_, ?_⟩
  · rw [List.length_append, List.length_singleton]
  · exact List.take_left messages _
  · exact List.getLast?_concat messages

/-- The `gameState` prop of `GameStatus`: a JS object whose `dayNumber`
and `phase` fields may each be absent (destructuring defaults apply). -/
structure GameStateProps where
  dayNumber : Option Nat
  phase : Option String
  deriving DecidableEq, Repr

/-- Embedding of the initial `gameState` of `App`
(App.jsx: `useState({ dayNumber: 1, phase: 'Day' })`). -/
def App.initialGameState : GameStateProps :=
  ⟨some 1, some "Day"⟩

/-- Embedding of the day number `GameStatus` displays
(GameStatus.jsx: `const { dayNumber = 1 } = gameState || {}`): 1 when the
prop is absent or has no `dayNumber` field. -/
def GameStatus.shownDay (gameState : Option GameStateProps) : Nat :=
  match gameState with
  | none => 1
  | some gs => gs.dayNumber.getD 1

/-- The "Day: ..." line `GameStatus` renders. -/
def GameStatus.dayLine (gameState : Option GameStateProps) : String :=
  "Day: " ++ toString (GameStatus.shownDay gameState)

/-- C8: the day counter starts at 1. The App's initial game state has
dayNumber 1, and the status display shows "Day: 1" whenever no game
state is provided or the provided state has no day number. -/
theorem initial_day_number_one (phase : Option String) :
    App.initialGameState.dayNumber = some 1 ∧
      GameStatus.dayLine none = "Day: 1" ∧
      GameStatus.dayLine (some ⟨none, phase⟩) = "Day: 1" ∧
      GameStatus.dayLine (some App.initialGameState) = "Day: 1" := by
  refine ⟨rfl, by decide, ?_, by decide⟩
  show "Day: " ++ toString (GameStatus.shownDay (some ⟨none, phase⟩)) = "Day: 1"
  norm_num [GameStatus.shownDay]
  exact rfl

/-- What the `MessageInput` component renders: the discussion form (a
heading, a text box and a Send button) or an informational notice with
the given text and no form. -/
inductive MessageInputView where
  | dayForm
  | notice (text : String)
  deriving DecidableEq, Repr

/-- Embedding of the render of `MessageInput` (components/
MessageInput.jsx): the notice for every phase other than "Day", the
discussion form for "Day". -/
def MessageInput.render (phase : String) : MessageInputView :=
  if phase = "Day" then .dayForm
  else .notice "Discussion happens during the Day phase."

/-- C9: the chat-message input form is rendered if and only if the phase
is "Day"; in every other phase the component renders only the
informational notice, so no chat message can be submitted outside the
Day phase. -/
theorem messageInput_form_iff_day (phase : String) :
    (MessageInput.render phase = MessageInputView.dayForm ↔ phase = "Day") ∧
      (MessageInput.render phase =
          MessageInputView.notice "Discussion happens during the Day phase." ↔
        phase ≠ "Day") := by
  unfold MessageInput.render
  by_cases h : phase = "Day"
  · rw [if_pos h]
    simp [h]
  · rw [if_neg h]
    simp [h]

/-- The observable effect of one run of `MessageInput.handleSubmit`:
the list of arguments `onMessageSubmit` was invoked with (in order), the
`message` state after the run, and the line written to the console. -/
structure SubmitEffect where
  invocations : List String
  storedMessage : String
  consoleLine : String
  deriving DecidableEq, Repr

/-- Embedding of `handleSubmit` (components/MessageInput.jsx): if the
trimmed message is non-empty (JS string truthiness) and a handler prop
was provided, it logs, calls `onMessageSubmit` once with the untrimmed
message and clears the state; otherwise it only logs the prevented
message and leaves the state unchanged. It never throws. -/
def MessageInput.handleSubmit (message : String) (hasHandler : Bool) :
    SubmitEffect :=
  if message.trim ≠ "" ∧ hasHandler = true then
    ⟨[message], "", "Submitting message: " ++ message⟩
  else
    ⟨[], message, "Message submit prevented: Empty message or no submit handler."⟩

/-- C10: submitting the form invokes `onMessageSubmit` exactly once with
the typed message and resets the stored message to "" precisely when the
message is non-empty after trimming and a handler was provided; in every
other case no invocation happens and the stored message is kept. The
handler-absent case is an ordinary run of the same total function, so it
does not throw. -/
theorem messageInput_submit_characterized (message : String)
    (hasHandler : Bool) :
    ((MessageInput.handleSubmit message hasHandler).invocations =
          [message] ∧
        (MessageInput.handleSubmit message hasHandler).storedMessage = "" ↔
      message.trim ≠ "" ∧ hasHandler = true) ∧
      ((MessageInput.handleSubmit message hasHandler).invocations = [] ∧
          (MessageInput.handleSubmit message hasHandler).storedMessage =
            message ↔
        ¬(message.trim ≠ "" ∧ hasHandler = true)) := by
  unfold MessageInput.handleSubmit
  by_cases h : message.trim ≠ "" ∧ hasHandler = true
  · rw [if_pos h]
    simp [h.1, h.2]
  · rw [if_neg h]
    simp [h]

/-- Modelled from the spec: the backend Role enum is absent from the
sources (only the frontend exists); spec section 3 lists MAFIA,
DETECTIVE, DOCTOR, VILLAGER. -/
inductive Role where
  | MAFIA
  | DETECTIVE
  | DOCTOR
  | VILLAGER
  deriving DecidableEq, Repr

/-- Modelled from the spec: the backend liveness status enum is absent
from the sources; spec section 3 lists ALIVE and DEAD. -/
inductive PStatus where
  | ALIVE
  | DEAD
  deriving DecidableEq, Repr

/-- Modelled from the spec: a backend Participant, absent from the
sources; spec section 3 (identity, display name, Role, liveness status,
human-controlled flag; the role-private fields play no part in the
claims modelled here). -/
structure Participant where
  id : String
  name : String
  role : Role
  status : PStatus
  isHuman : Bool
  deriving DecidableEq, Repr

/-- Modelled from the spec: the declared kind of a NightAction, absent
from the sources; spec section 3 lists KILL, INVESTIGATE, PROTECT. -/
inductive ActionKind where
  | KILL
  | INVESTIGATE
  | PROTECT
  deriving DecidableEq, Repr

/-- Modelled from the spec: a NightAction (actor id, declared kind,
target id), absent from the sources; spec section 3. The ledger order is
submission order, which the kill tie-break below consults. -/
structure NightAction where
  actorId : String
  kind : ActionKind
  targetId : String
  deriving DecidableEq, Repr

/-- Modelled from the spec: a Vote entry, voter id to target id or null
for an abstention, absent from the sources; spec section 3. -/
structure Vote where
  voterId : String
  targetId : Option String
  deriving DecidableEq, Repr

/-- Modelled from the spec: the match outcome field, absent from the
sources; spec section 3 (unset, innocents-win or mafia-win). -/
inductive Outcome where
  | UNSET
  | INNOCENTS_WIN
  | MAFIA_WIN
  deriving DecidableEq, Repr

/-- Marks the participant with the given id DEAD, leaving everyone else
unchanged (the status write shared by night and voting resolution). -/
def markDead (ps : List Participant) (targetId : String) :
    List Participant :=
  ps.map (fun p =>
    if p.id = targetId then ⟨p.id, p.name, p.role, PStatus.DEAD, p.isHuman⟩
    else p)

/-- Modelled from the spec: the single KILL target of a night, absent
from the sources; spec section 4.3 step 1 (earliest valid KILL
submission wins; none when no KILL was submitted). -/
def killTarget (actions : List NightAction) : Option String :=
  (actions.find? (fun a => a.kind = ActionKind.KILL)).map (·.targetId)

/-- Modelled from the spec: the PROTECT target of a night, absent from
the sources; spec section 4.3 step 2 (none when no PROTECT was
submitted). -/
def protectTarget (actions : List NightAction) : Option String :=
  (actions.find? (fun a => a.kind = ActionKind.PROTECT)).map (·.targetId)

/-- Modelled from the spec: night resolution over the participants,
absent from the sources; spec section 4.3: no KILL submitted means no
death; a KILL whose target equals the PROTECT target is negated (doctor
save) and changes no status; an unblocked KILL marks its target DEAD. -/
def resolveNight (ps : List Participant) (actions : List NightAction) :
    List Participant :=
  match killTarget actions with
  | none => ps
  | some t =>
    if protectTarget actions = some t then ps
    else markDead ps t

/-- Modelled from the spec: the multiset of non-abstaining vote targets,
absent from the sources; spec section 4.3 voting step 1 (abstentions
excluded from the tally). -/
def castTargets (votes : List Vote) : List String :=
  votes.filterMap (·.targetId)

/-- Modelled from the spec: the per-target tally, absent from the
sources; spec section 4.3 voting step 1. -/
def voteTally (votes : List Vote) (targetId : String) : Nat :=
  (castTargets votes).count targetId

/-- Modelled from the spec: the highest per-target count of the vote
map, absent from the sources; 0 when every vote abstained. -/
def topCount (votes : List Vote) : Nat :=
  ((castTargets votes).map (voteTally votes)).foldr max 0

/-- Modelled from the spec: the distinct targets tied for the highest
count, absent from the sources; spec section 4.3 voting step 2. -/
def topTargets (votes : List Vote) : List String :=
  ((castTargets votes).dedup).filter
    (fun t => voteTally votes t = topCount votes)

/-- Modelled from the spec: voting resolution, absent from the sources;
spec section 4.3 voting steps 2 and 3: a single target with the top
count that holds a strict majority of the non-abstaining votes is
eliminated; a tie for the top count (or no votes cast, or no strict
majority) eliminates nobody — the tie is an outcome, not an error. -/
def resolveVote (ps : List Participant) (votes : List Vote) :
    List Participant :=
  match topTargets votes with
  | [t] =>
    if 2 * voteTally votes t > (castTargets votes).length then markDead ps t
    else ps
  | _ => ps

/-- The count of ALIVE MAFIA participants. -/
def mafiaAliveCount (ps : List Participant) : Nat :=
  (ps.filter (fun p => p.role = Role.MAFIA ∧ p.status = PStatus.ALIVE)).length

/-- The count of ALIVE innocent (non-MAFIA) participants. -/
def innocentAliveCount (ps : List Participant) : Nat :=
  (ps.filter (fun p => p.role ≠ Role.MAFIA ∧ p.status = PStatus.ALIVE)).length

/-- Modelled from the spec: the win check, absent from the sources; spec
section 4.3: MAFIA-alive-count at least INNOCENT-alive-count gives
MAFIA_WIN; otherwise MAFIA-alive-count zero gives INNOCENTS_WIN;
otherwise the outcome stays unset (the spec lists the MAFIA condition
first, which decides the overlap of the two conditions). -/
def checkWin (ps : List Participant) : Outcome :=
  if innocentAliveCount ps ≤ mafiaAliveCount ps then Outcome.MAFIA_WIN
  else if mafiaAliveCount ps = 0 then Outcome.INNOCENTS_WIN
  else Outcome.UNSET

/-- C2: whenever the PROTECT target equals the KILL target, night
resolution leaves the participant list unchanged: no status becomes
DEAD and the night yields zero deaths. -/
theorem resolveNight_protect_equals_kill_no_deaths
    (ps : List Participant) (actions : List NightAction)
    (h : protectTarget actions = killTarget actions) :
    resolveNight ps actions = ps := by
  unfold resolveNight
  cases hk : killTarget actions with
  | none => rfl
  | some t =>
    rw [hk] at h
    show (if protectTarget actions = some t then ps else markDead ps t) = ps
    rw [if_pos h]

/-- Witness for C2: a mafia KILL on p2 together with a doctor PROTECT on
p2 leaves the seven-player match of the spec's concrete scenario
untouched. -/
theorem resolveNight_protect_equals_kill_no_deaths_witness :
    resolveNight
      [⟨"p1", "Human", Role.VILLAGER, PStatus.ALIVE, true⟩,
       ⟨"p2", "Victim", Role.DETECTIVE, PStatus.ALIVE, false⟩,
       ⟨"p3", "Shadow", Role.MAFIA, PStatus.ALIVE, false⟩]
      [⟨"p3", ActionKind.KILL, "p2"⟩, ⟨"p4", ActionKind.PROTECT, "p2"⟩] =
      [⟨"p1", "Human", Role.VILLAGER, PStatus.ALIVE, true⟩,
       ⟨"p2", "Victim", Role.DETECTIVE, PStatus.ALIVE, false⟩,
       ⟨"p3", "Shadow", Role.MAFIA, PStatus.ALIVE, false⟩] :=
  resolveNight_protect_equals_kill_no_deaths _ _ (by decide)

/-- C3: whenever two or more targets are tied for the highest vote
count, voting resolution eliminates nobody: the participant list is
returned unchanged, with no error path involved. -/
theorem resolveVote_tie_no_elimination (ps : List Participant)
    (votes : List Vote) (h : 2 ≤ (topTargets votes).length) :
    resolveVote ps votes = ps := by
  unfold resolveVote
  cases htop : topTargets votes with
  | nil => rfl
  | cons t rest =>
    cases rest with
    | nil =>
      rw [htop] at h
      exact absurd h (by simp)
    | cons u more => rfl

/-- Witness for C3: with one vote for a1 and one for a2 the top count is
tied between two targets, and nobody in the two-player electorate is
eliminated. -/
theorem resolveVote_tie_no_elimination_witness :
    resolveVote
      [⟨"a1", "Alpha", Role.VILLAGER, PStatus.ALIVE, true⟩,
       ⟨"a2", "Beta", Role.MAFIA, PStatus.ALIVE, false⟩]
      [⟨"a1", some "a2"⟩, ⟨"a2", some "a1"⟩] =
      [⟨"a1", "Alpha", Role.VILLAGER, PStatus.ALIVE, true⟩,
       ⟨"a2", "Beta", Role.MAFIA, PStatus.ALIVE, false⟩] :=
  resolveVote_tie_no_elimination _ _ (by decide)

/-- A match state in which every participant is DEAD: zero ALIVE MAFIA
and zero ALIVE innocents. -/
def allDeadParticipants : List Participant :=
  [⟨"m1", "Mob", Role.MAFIA, PStatus.DEAD, false⟩,
   ⟨"v1", "Vera", Role.VILLAGER, PStatus.DEAD, true⟩]

/-- Counterexample to C4 as stated: with every participant DEAD the
ALIVE MAFIA count is zero, yet the win check does not produce
INNOCENTS_WIN — the MAFIA condition (mafia-alive at least
innocent-alive) also holds and is decided first, so the outcome is
MAFIA_WIN. The biconditional "INNOCENTS_WIN iff zero alive mafia"
therefore fails at this state. -/
theorem checkWin_not_innocents_iff_no_mafia :
    mafiaAliveCount allDeadParticipants = 0 ∧
      checkWin allDeadParticipants = Outcome.MAFIA_WIN ∧
      checkWin allDeadParticipants ≠ Outcome.INNOCENTS_WIN := by
  decide

/-- C4 amended: the win check produces MAFIA_WIN exactly when the ALIVE
MAFIA count is at least the ALIVE innocent count; it produces
INNOCENTS_WIN exactly when the ALIVE MAFIA count is zero while at least
one innocent is still ALIVE; and it leaves the outcome unset exactly
when some MAFIA is ALIVE but strictly fewer than the ALIVE innocents. -/
theorem checkWin_characterized (ps : List Participant) :
    (checkWin ps = Outcome.MAFIA_WIN ↔
        innocentAliveCount ps ≤ mafiaAliveCount ps) ∧
      (checkWin ps = Outcome.INNOCENTS_WIN ↔
        mafiaAliveCount ps = 0 ∧ 0 < innocentAliveCount ps) ∧
      (checkWin ps = Outcome.UNSET ↔
        0 < mafiaAliveCount ps ∧
          mafiaAliveCount ps < innocentAliveCount ps) := by
  unfold checkWin
  split_ifs with h1 h2 <;> refine ⟨?_, ?_, ?_⟩ <;> constructor <;>
    intro hc <;> first
      | rfl
      | omega
      | (exact absurd rfl (by simp_all))
      | (exact absurd hc (by simp_all))
